import Mathlib

/-!
Verification of the Button component (src/components/button/button.tsx).

The development shallowly embeds the decision logic of the component:
the color/variant configuration resolver, the loading-input
normalization, the delayed-loading timer effect, the click gate, the
link-render branch, the icon-node selection, and the icon-only and
CJK-spacing class-name conditions.  JavaScript optional values are
modelled with `Option` (where `some` stands for a supplied, truthy
value), JavaScript numbers used as millisecond delays with `Int` plus
explicit constructors for `NaN`, `undefined` and non-numeric values,
and React nodes with `Bool` truthiness flags.
-/

namespace Button

/-- The `ButtonType` union from buttonHelpers, as used by the resolver:
`default | primary | dashed | link | text`. -/
inductive ButtonType where
  | default
  | primary
  | dashed
  | link
  | text
deriving DecidableEq, Repr

/-- The raw inputs read by the `mergedColor`/`mergedVariant` resolver
(button.tsx lines 229-255): the `color`, `variant`, `type` props and the
`danger` flag (which defaults to `false`).  `some` models a supplied,
truthy value. -/
structure ColorVariantInput where
  color : Option String
  variant : Option String
  type : Option ButtonType
  danger : Bool
deriving DecidableEq, Repr

/-- The ambient `button` context configuration read from `ConfigContext`:
its optional default `color` and `variant`. -/
structure AmbientButton where
  color : Option String
  variant : Option String
deriving DecidableEq, Repr

/-- `const mergedType = type || 'default'` (button.tsx line 218). -/
def mergedType (t : Option ButtonType) : ButtonType :=
  t.getD ButtonType.default

/-- The legacy `ButtonTypeMap` table (button.tsx lines 169-176).  For a
well-typed `ButtonType` the lookup always succeeds, so the `|| []`
fallback of line 239 is unreachable and the map is total here. -/
def ButtonTypeMap : ButtonType → String × String
  | ButtonType.default => ("default", "outlined")
  | ButtonType.primary => ("primary", "solid")
  | ButtonType.dashed => ("default", "dashed")
  | ButtonType.link => ("link", "link")
  | ButtonType.text => ("default", "text")

/-- The `useMemo` body computing `[mergedColor, mergedVariant]`
(button.tsx lines 229-255): explicit pair first, then the legacy
`type`/`danger` sugar, then the context pair, then the
`['default', 'outlined']` fallback. -/
def resolveColorVariant (r : ColorVariantInput) (ctx : AmbientButton) :
    Option String × Option String :=
  if r.color.isSome && r.variant.isSome then
    (r.color, r.variant)
  else if r.type.isSome || r.danger then
    let colorVariantPair := ButtonTypeMap (mergedType r.type)
    if r.danger then
      (some "danger", some colorVariantPair.2)
    else
      (some colorVariantPair.1, some colorVariantPair.2)
  else if ctx.color.isSome && ctx.variant.isSome then
    (ctx.color, ctx.variant)
  else
    (some "default", some "outlined")

/-- A JavaScript value read from `loading.delay`: a number, `NaN`,
`undefined` (the property is absent), or some non-numeric value.
Finite JS numbers are modelled as `Int` milliseconds. -/
inductive JSDelay where
  | num (v : Int)
  | nan
  | undef
  | nonNumeric
deriving DecidableEq, Repr

/-- `delay = !Number.isNaN(delay) && typeof delay === 'number' ? delay : 0`
(button.tsx line 143): keep a non-`NaN` number, coerce everything else
to `0`.  (`Number.isNaN` does not coerce, so a non-number fails the
`typeof` test and also lands on `0`.) -/
def normalizeDelay : JSDelay → Int
  | JSDelay.num v => v
  | _ => 0

/-- The `loading` prop: a boolean, or an object `{delay?, icon?}`.
The object's `icon` is modelled by its truthiness. -/
inductive LoadingInput where
  | bool (b : Bool)
  | obj (delay : JSDelay) (icon : Bool)
deriving DecidableEq, Repr

/-- `LoadingConfigType` (button.tsx lines 125-130). -/
structure LoadingConfigType where
  loading : Bool
  delay : Int
deriving DecidableEq, Repr

/-- `getLoadingConfig` (button.tsx lines 138-156): an object resolves
its delay and is loading iff `delay <= 0`; a boolean maps to itself
with delay `0`. -/
def getLoadingConfig : LoadingInput → LoadingConfigType
  | LoadingInput.obj d _ =>
    let delay := normalizeDelay d
    { loading := delay ≤ 0, delay := delay }
  | LoadingInput.bool b => { loading := b, delay := 0 }

/-- The state carried by the loading effect: the `innerLoading` flag
held in `useState` (button.tsx line 296) and the pending `delayTimer`
of the layout effect (line 335), recorded as its remaining
milliseconds.  The source holds at most one timer handle, hence an
`Option`. -/
structure LoadingEffectState where
  innerLoading : Bool
  timer : Option Int
deriving DecidableEq, Repr

/-- The `useState` initializer: `useState(loadingOrDelay.loading)`
(button.tsx line 296), with no timer scheduled yet. -/
def initialLoadingState (cfg : LoadingConfigType) : LoadingEffectState :=
  { innerLoading := cfg.loading, timer := none }

/-- One run of the layout effect (button.tsx lines 334-356) on a change
of the normalized config: the previous run's cleanup has already
cleared any pending timer, then the body either schedules a timer of
`cfg.delay` milliseconds (leaving `innerLoading` untouched) or, with no
delay, sets `innerLoading` to `cfg.loading` at once. -/
def applyChange (cfg : LoadingConfigType) (s : LoadingEffectState) :
    LoadingEffectState :=
  if 0 < cfg.delay then
    { innerLoading := s.innerLoading, timer := some cfg.delay }
  else
    { innerLoading := cfg.loading, timer := none }

/-- The state right after mounting with normalized config `cfg`: the
`useState` initializer followed by the first run of the layout
effect. -/
def mountState (cfg : LoadingConfigType) : LoadingEffectState :=
  applyChange cfg (initialLoadingState cfg)

/-- One millisecond of elapsed time: a pending timer counts down, and
when it reaches zero its callback runs `setLoading(true)` and nulls the
handle (button.tsx lines 338-341); without a timer nothing happens. -/
def applyTick (s : LoadingEffectState) : LoadingEffectState :=
  match s.timer with
  | some r =>
    if r ≤ 1 then { innerLoading := true, timer := none }
    else { innerLoading := s.innerLoading, timer := some (r - 1) }
  | none => s

/-- The effect's cleanup run on teardown (button.tsx lines 348-355):
`clearTimeout` on any pending timer; the state flag itself is not
touched. -/
def teardownCleanup (s : LoadingEffectState) : LoadingEffectState :=
  { innerLoading := s.innerLoading, timer := none }

/-- `const mergedDisabled = customDisabled ?? disabled`
(button.tsx line 286). -/
def mergedDisabled (customDisabled : Option Bool) (ctxDisabled : Bool) :
    Bool :=
  customDisabled.getD ctxDisabled

/-- The observable outcome of one `handleClick` invocation: whether
`e.preventDefault()` ran, how many times the caller's `onClick` was
invoked, and - when it was - whether the event was forwarded with the
anchor typing (`'href' in props`) or the button typing. -/
structure ClickOutcome where
  defaultPrevented : Bool
  handlerCalls : Nat
  anchorTyped : Option Bool
deriving DecidableEq, Repr

/-- `handleClick` (button.tsx lines 396-413): when `innerLoading` or
`mergedDisabled` holds the event's default is prevented and the handler
is never reached; otherwise `props.onClick?.(e)` fires the supplied
handler once, cast to the anchor event type iff `'href' in props`. -/
def handleClick (innerLoading disabled hasOnClick hrefInProps : Bool) :
    ClickOutcome :=
  if innerLoading || disabled then
    { defaultPrevented := true, handlerCalls := 0, anchorTyped := none }
  else if hasOnClick then
    { defaultPrevented := false, handlerCalls := 1,
      anchorTyped := some hrefInProps }
  else
    { defaultPrevented := false, handlerCalls := 0, anchorTyped := none }

/-- The attributes of the `<a>` element produced by the link branch
(button.tsx lines 547-567). -/
structure LinkAttrs where
  href : Option String
  tabIndex : Int
  ariaDisabled : Bool
  disabledClass : Bool
  renders : Bool
deriving DecidableEq, Repr

/-- The link-render branch, taken when the `href` prop is not
`undefined`: the `<a>` always renders, its `href` is withheld when
disabled, `tabIndex` is `-1` when disabled and `0` otherwise,
`aria-disabled` mirrors the disabled flag, and the `-disabled` class is
added exactly when disabled. -/
def renderLinkButton (href : String) (disabled : Bool) : LinkAttrs :=
  { href := if disabled then none else some href
    tabIndex := if disabled then -1 else 0
    ariaDisabled := disabled
    disabledClass := disabled
    renders := true }

/-- The rendered icon node: the user icon in an `IconWrapper`, the
loading spec's custom icon in an `IconWrapper`, or the
`DefaultLoadingIcon` with its `existIcon`, `loading` and `mount`
parameters. -/
inductive IconNode where
  | customIcon
  | customLoadingIcon
  | defaultSpinner (existIcon loading mount : Bool)
deriving DecidableEq, Repr

/-- Truthiness of `loading && typeof loading === 'object' && loading.icon`
(button.tsx line 521): an object is always truthy, so this holds exactly
when the prop is an object whose `icon` is truthy. -/
def loadingObjIcon : LoadingInput → Bool
  | LoadingInput.obj _ icon => icon
  | LoadingInput.bool _ => false

/-- The `iconNode` conditional (button.tsx lines 514-533): user icon
while not loading, else the loading spec's custom icon, else the
default spinner parameterised by `!!icon`, `innerLoading` and
`isMountRef.current`. -/
def iconNode (icon innerLoading : Bool) (loadingProp : LoadingInput)
    (mountNow : Bool) : IconNode :=
  if icon && !innerLoading then
    IconNode.customIcon
  else if loadingObjIcon loadingProp then
    IconNode.customLoadingIcon
  else
    IconNode.defaultSpinner icon innerLoading mountNow

/-- Lifecycle events touching `isMountRef` (button.tsx lines 318-326):
the mount effect body and the unmount cleanup. -/
inductive MountEvent where
  | mountEffect
  | unmountCleanup
deriving DecidableEq, Repr

/-- One `isMountRef` update: the effect body writes `false`, the
cleanup writes `true`. -/
def stepMountRef (_ : Bool) : MountEvent → Bool
  | MountEvent.mountEffect => false
  | MountEvent.unmountCleanup => true

/-- `isMountRef.current` after a sequence of lifecycle events, starting
from the initial `useRef(true)`. -/
def mountRefAfter (es : List MountEvent) : Bool :=
  es.foldl stepMountRef true

/-- The `children` prop, classified by the two tests the source applies
to it: JS truthiness and strict equality with the number `0`.
`falsyNonZero` covers `undefined`, `null`, `''`, `false` and `NaN`;
`numZero` is the literal number `0`; `present` is any truthy node. -/
inductive JSChildren where
  | falsyNonZero
  | numZero
  | present
deriving DecidableEq, Repr

/-- JS truthiness of the `children` value. -/
def childrenTruthy : JSChildren → Bool
  | JSChildren.present => true
  | _ => false

/-- `children !== 0`. -/
def childrenNeZero : JSChildren → Bool
  | JSChildren.numZero => false
  | _ => true

/-- The `icon-only` class condition
`!children && children !== 0 && !!iconType` (button.tsx line 480),
with `iconType = innerLoading ? 'loading' : icon` (line 452); the
string `'loading'` is truthy. -/
def iconOnlyClass (children : JSChildren) (innerLoading icon : Bool) :
    Bool :=
  !childrenTruthy children && childrenNeZero children &&
    (if innerLoading then true else icon)

/-- `const mergedInsertSpace = autoInsertSpace ?? contextAutoInsertSpace ?? true`
(button.tsx line 274). -/
def mergedInsertSpace (autoInsertSpace ctxAutoInsertSpace : Option Bool) :
    Bool :=
  (autoInsertSpace.or ctxAutoInsertSpace).getD true

/-- Modelled from the spec: `isUnBorderedButtonVariant` lives in
buttonHelpers, which is outside the provided sources; per the spec the
unbordered family is the link/text-like variants, which "render without
a perceptible surface". -/
def isUnBorderedButtonVariant (variant : Option String) : Bool :=
  variant == some "text" || variant == some "link"

/-- `needInserted` (button.tsx lines 310-311): exactly one child, no
icon, and the merged variant is not unbordered. -/
def needInserted (childCount : Nat) (icon : Bool)
    (variant : Option String) : Bool :=
  childCount == 1 && !icon && !isUnBorderedButtonVariant variant

/-- One run of the two-CN-char effect (button.tsx lines 363-378) on
state `prev`, given the current conditions: it returns unchanged when
`mergedInsertSpace` is off (early return; the `buttonRef` is assumed
attached), and otherwise sets the flag to
`needInserted && isTwoCNChar(buttonText)`. -/
def hasTwoCNCharAfterEffect (insertSpace needIns isTwoCN prev : Bool) :
    Bool :=
  if !insertSpace then prev
  else if needIns && isTwoCN then true
  else false

/-- The `two-chinese-chars` class condition
`hasTwoCNChar && mergedInsertSpace && !innerLoading`
(button.tsx line 486). -/
def twoChineseCharsClass (hasTwoCNChar insertSpace innerLoading : Bool) :
    Bool :=
  hasTwoCNChar && insertSpace && !innerLoading

/-! ### Spec-side descriptions of the four resolution rules

These restate the spec's resolution rules one by one, independently of
the if-chain of `resolveColorVariant`, so that the invariant "exactly
one rule fires and determines the result" can be stated against
them. -/

/-- Rule 1 guard: both `color` and `variant` are explicitly supplied. -/
def guardExplicit (r : ColorVariantInput) : Bool :=
  r.color.isSome && r.variant.isSome

/-- Rule 2 guard: not rule 1, and legacy `type` or `danger` is supplied. -/
def guardLegacy (r : ColorVariantInput) : Bool :=
  !guardExplicit r && (r.type.isSome || r.danger)

/-- Rule 3 guard: neither rule 1 nor rule 2, and the ambient context
supplies both a default color and a default variant. -/
def guardContext (r : ColorVariantInput) (ctx : AmbientButton) : Bool :=
  !guardExplicit r && !(r.type.isSome || r.danger) &&
    (ctx.color.isSome && ctx.variant.isSome)

/-- Rule 4 guard: none of the first three rules applies. -/
def guardDefault (r : ColorVariantInput) (ctx : AmbientButton) : Bool :=
  !guardExplicit r && !(r.type.isSome || r.danger) &&
    !(ctx.color.isSome && ctx.variant.isSome)

/-- How many of the four rule guards hold. -/
def firedRuleCount (r : ColorVariantInput) (ctx : AmbientButton) : Nat :=
  (guardExplicit r).toNat + (guardLegacy r).toNat +
    (guardContext r ctx).toNat + (guardDefault r ctx).toNat

/-- Which rule fires (the first whose guard holds). -/
def firedRule (r : ColorVariantInput) (ctx : AmbientButton) : Fin 4 :=
  if guardExplicit r then 0
  else if guardLegacy r then 1
  else if guardContext r ctx then 2
  else 3

/-- The output each rule prescribes, per the spec: the explicit pair,
the legacy mapping with the danger override, the context pair, and the
`(default, outlined)` fallback. -/
def ruleOutput (r : ColorVariantInput) (ctx : AmbientButton) :
    Fin 4 → Option String × Option String
  | 0 => (r.color, r.variant)
  | 1 =>
    let pair := ButtonTypeMap (mergedType r.type)
    if r.danger then (some "danger", some pair.2)
    else (some pair.1, some pair.2)
  | 2 => (ctx.color, ctx.variant)
  | 3 => (some "default", some "outlined")

/-- C1: whenever both `color` and `variant` are supplied (truthy), the
resolver returns exactly that pair, whatever `type`, `danger` and the
ambient context's defaults are. -/
theorem resolve_explicit_pair_verbatim (c v : String)
    (t : Option ButtonType) (danger : Bool) (ctx : AmbientButton) :
    resolveColorVariant
      { color := some c, variant := some v, type := t, danger := danger }
      ctx = (some c, some v) := by
  simp [resolveColorVariant]

/-- C2: each legacy `type` alone (empty ambient context) resolves to
its mapped pair; whenever the legacy branch fires with `danger` set,
the color is the `danger` sentinel and the variant is the one mapped
from `type || 'default'`; in particular `danger = true` with
`variant = 'text'`, no `color` and no `type` resolves to
`(danger, outlined)`, ignoring the supplied variant. -/
theorem resolve_legacy_type_map :
    (resolveColorVariant
        { color := none, variant := none,
          type := some ButtonType.default, danger := false }
        { color := none, variant := none } =
      (some "default", some "outlined")) ∧
    (resolveColorVariant
        { color := none, variant := none,
          type := some ButtonType.primary, danger := false }
        { color := none, variant := none } =
      (some "primary", some "solid")) ∧
    (resolveColorVariant
        { color := none, variant := none,
          type := some ButtonType.dashed, danger := false }
        { color := none, variant := none } =
      (some "default", some "dashed")) ∧
    (resolveColorVariant
        { color := none, variant := none,
          type := some ButtonType.link, danger := false }
        { color := none, variant := none } =
      (some "link", some "link")) ∧
    (resolveColorVariant
        { color := none, variant := none,
          type := some ButtonType.text, danger := false }
        { color := none, variant := none } =
      (some "default", some "text")) ∧
    (∀ (r : ColorVariantInput) (ctx : AmbientButton),
      guardLegacy r = true → r.danger = true →
      resolveColorVariant r ctx =
        (some "danger", some (ButtonTypeMap (mergedType r.type)).2)) ∧
    (∀ ctx : AmbientButton,
      resolveColorVariant
        { color := none, variant := some "text", type := none,
          danger := true }
        ctx = (some "danger", some "outlined")) := by
  refine ⟨rfl, rfl, rfl, rfl, rfl, ?_, ?_⟩
  · intro r ctx hleg hd
    have h1 : guardExplicit r = false := by
      rcases h : guardExplicit r
      · rfl
      · rw [guardLegacy, h] at hleg
        simp at hleg
    rw [guardExplicit] at h1
    simp [resolveColorVariant, h1, hd]
  · intro ctx
    simp [resolveColorVariant, mergedType, ButtonTypeMap]

/-- Witness for `resolve_legacy_type_map`: the legacy-branch clause at
the concrete input `type = text`, `danger = true`. -/
theorem resolve_legacy_type_map_witness :
    resolveColorVariant
      { color := none, variant := none, type := some ButtonType.text,
        danger := true }
      { color := none, variant := none } =
      (some "danger", some "text") :=
  resolve_legacy_type_map.2.2.2.2.2.1
    { color := none, variant := none, type := some ButtonType.text,
      danger := true }
    { color := none, variant := none } (by decide) rfl

/-- C3: for every raw input and ambient context the resolved color and
variant are both defined (never partially null), exactly one of the
four resolution rules' guards holds, and the resolver's result is the
output prescribed by the rule that fires. -/
theorem resolve_total_one_rule (r : ColorVariantInput)
    (ctx : AmbientButton) :
    (resolveColorVariant r ctx).1.isSome = true ∧
    (resolveColorVariant r ctx).2.isSome = true ∧
    firedRuleCount r ctx = 1 ∧
    resolveColorVariant r ctx = ruleOutput r ctx (firedRule r ctx) := by
  unfold resolveColorVariant firedRuleCount firedRule guardLegacy
    guardContext guardDefault guardExplicit ruleOutput
  rcases h1 : (r.color.isSome && r.variant.isSome) with _ | _ <;>
    rcases h2 : (r.type.isSome || r.danger) with _ | _ <;>
      rcases h3 : (ctx.color.isSome && ctx.variant.isSome) with _ | _ <;>
        simp_all <;> rcases r.danger <;> simp

/-- C4: the loading-input normalization is total and matches the spec's
case table: `false` maps to inactive; `true` to immediately active; an
object with absent, `NaN` or non-numeric `delay` coerces the delay to
`0` and is immediately active; an object with `delay <= 0` is
immediately active; an object with `delay > 0` is initially inactive
with that delay; and whenever the normalized config is active, the
mounted state is active with no pending timer (no lagging tick). -/
theorem getLoadingConfig_total_normalization :
    (getLoadingConfig (LoadingInput.bool false) =
      { loading := false, delay := 0 }) ∧
    (getLoadingConfig (LoadingInput.bool true) =
      { loading := true, delay := 0 }) ∧
    (∀ i : Bool, getLoadingConfig (LoadingInput.obj JSDelay.undef i) =
      { loading := true, delay := 0 }) ∧
    (∀ i : Bool, getLoadingConfig (LoadingInput.obj JSDelay.nan i) =
      { loading := true, delay := 0 }) ∧
    (∀ i : Bool, getLoadingConfig (LoadingInput.obj JSDelay.nonNumeric i) =
      { loading := true, delay := 0 }) ∧
    (∀ (v : Int) (i : Bool), v ≤ 0 →
      getLoadingConfig (LoadingInput.obj (JSDelay.num v) i) =
        { loading := true, delay := v }) ∧
    (∀ (v : Int) (i : Bool), 0 < v →
      getLoadingConfig (LoadingInput.obj (JSDelay.num v) i) =
        { loading := false, delay := v }) ∧
    (∀ l : LoadingInput, (getLoadingConfig l).loading = true →
      (initialLoadingState (getLoadingConfig l)).innerLoading = true ∧
      mountState (getLoadingConfig l) =
        { innerLoading := true, timer := none }) := by
  refine ⟨rfl, rfl, fun i => rfl, fun i => rfl, fun i => rfl,
    ?_, ?_, ?_⟩
  · intro v i hv
    simp [getLoadingConfig, normalizeDelay, hv]
  · intro v i hv
    simp [getLoadingConfig, normalizeDelay]
    omega
  · intro l hl
    have hd : (getLoadingConfig l).delay ≤ 0 := by
      rcases l with b | ⟨d, i⟩
      · simp [getLoadingConfig]
      · rcases d with v | _ | _ | _ <;>
          simp_all [getLoadingConfig, normalizeDelay]
    refine ⟨by simp [initialLoadingState, hl], ?_⟩
    have hlt : ¬ 0 < (getLoadingConfig l).delay := by omega
    simp [mountState, applyChange, initialLoadingState, hlt, hl]

/-- Witness for `getLoadingConfig_total_normalization`: the boundary
delay `0` is immediately active, delay `300` is initially inactive, and
mounting with `loading = true` is active at once with no timer. -/
theorem getLoadingConfig_total_normalization_witness :
    (getLoadingConfig (LoadingInput.obj (JSDelay.num 0) false) =
      { loading := true, delay := 0 }) ∧
    (getLoadingConfig (LoadingInput.obj (JSDelay.num 300) true) =
      { loading := false, delay := 300 }) ∧
    mountState (getLoadingConfig (LoadingInput.bool true)) =
      { innerLoading := true, timer := none } :=
  ⟨getLoadingConfig_total_normalization.2.2.2.2.2.1 0 false (by decide),
    getLoadingConfig_total_normalization.2.2.2.2.2.2.1 300 true (by decide),
    (getLoadingConfig_total_normalization.2.2.2.2.2.2.2
      (LoadingInput.bool true) rfl).2⟩

/-- Without a pending timer, elapsing time changes nothing. -/
theorem applyTick_iterate_none (b : Bool) (k : Nat) :
    applyTick^[k] { innerLoading := b, timer := none } =
      { innerLoading := b, timer := none } := by
  induction k with
  | zero => rfl
  | succ k ih => rw [Function.iterate_succ_apply, applyTick, ih]

/-- A pending timer of `r > 0` milliseconds counts down: after `k`
ticks it is still pending with `r - k` remaining if `k < r`, and
otherwise it has fired, setting the flag and clearing itself. -/
theorem applyTick_iterate_countdown (b : Bool) :
    ∀ (k : Nat) (r : Int), 0 < r →
      applyTick^[k] { innerLoading := b, timer := some r } =
        if (k : Int) < r then
          { innerLoading := b, timer := some (r - k) }
        else { innerLoading := true, timer := none } := by
  intro k
  induction k with
  | zero =>
    intro r hr
    simp [hr]
  | succ k ih =>
    intro r hr
    rw [Function.iterate_succ_apply]
    by_cases h1 : r ≤ 1
    · have hr1 : r = 1 := le_antisymm h1 hr
      subst hr1
      have hcond : ¬ ((k + 1 : Nat) : Int) < 1 := by
        push_cast
        omega
      rw [applyTick]
      simp only [if_pos (le_refl (1 : Int)), if_neg hcond]
      exact applyTick_iterate_none true k
    · have hr1 : 0 < r - 1 := by omega
      rw [applyTick]
      simp only [if_neg h1]
      rw [ih (r - 1) hr1]
      by_cases h2 : (k : Int) < r - 1
      · rw [if_pos h2, if_pos (by push_cast; omega)]
        have : r - 1 - (k : Int) = r - ((k + 1 : Nat) : Int) := by
          push_cast
          ring
        rw [this]
      · rw [if_neg h2, if_neg (by push_cast; omega)]

/-- C5 counterexample: the claim asserts that on every change of the
loading spec the automaton restarts from Idle, so that with a positive
delay `d` the active flag "remains false until d milliseconds elapse".
The code never resets `innerLoading` when scheduling a delayed timer:
if the flag was already active (previous spec `loading = true`) and the
spec changes to `{delay: 300}`, the flag stays `true` immediately after
the change and throughout the whole 300 ms window. -/
theorem loading_delay_not_from_idle :
    getLoadingConfig (LoadingInput.obj (JSDelay.num 300) false) =
      { loading := false, delay := 300 } ∧
    applyChange { loading := false, delay := 300 }
        { innerLoading := true, timer := none } =
      { innerLoading := true, timer := some 300 } ∧
    (applyTick^[299] (applyChange { loading := false, delay := 300 }
        { innerLoading := true, timer := none })).innerLoading = true := by
  refine ⟨rfl, rfl, ?_⟩
  have h : applyChange { loading := false, delay := 300 }
      { innerLoading := true, timer := none } =
      { innerLoading := true, timer := some 300 } := rfl
  rw [h, applyTick_iterate_countdown true 299 300 (by decide)]
  simp

/-- C5 (amended): starting from the inactive mount state, a spec with
positive delay `d` keeps the active flag false for the first `d`
milliseconds and true from `d` on (it becomes true exactly once); every
run of the change effect first discards the previous pending timer, so
its result depends only on the new config and the current flag, and the
single pending timer is the one the new config prescribes; teardown
clears any pending timer, after which no tick ever changes the state. -/
theorem loading_delay_automaton_amended (d : Int) (hd : 0 < d)
    (i : Bool) :
    (∀ k : Nat,
      (applyTick^[k] (mountState (getLoadingConfig
          (LoadingInput.obj (JSDelay.num d) i)))).innerLoading =
        decide (d ≤ (k : Int))) ∧
    (∀ (cfg : LoadingConfigType) (s t : LoadingEffectState),
      s.innerLoading = t.innerLoading →
      applyChange cfg s = applyChange cfg t) ∧
    (∀ (cfg : LoadingConfigType) (s : LoadingEffectState),
      (applyChange cfg s).timer =
        if 0 < cfg.delay then some cfg.delay else none) ∧
    (∀ (s : LoadingEffectState) (k : Nat),
      (teardownCleanup s).timer = none ∧
      applyTick^[k] (teardownCleanup s) = teardownCleanup s) := by
  refine ⟨?_, ?_, ?_, ?_⟩
  · intro k
    have hmount : mountState (getLoadingConfig
        (LoadingInput.obj (JSDelay.num d) i)) =
        { innerLoading := false, timer := some d } := by
      have hload : ¬ d ≤ (0 : Int) := by omega
      simp [mountState, getLoadingConfig, normalizeDelay,
        initialLoadingState, applyChange, hd, hload]
    rw [hmount, applyTick_iterate_countdown false k d hd]
    by_cases h : (k : Int) < d
    · rw [if_pos h]
      simp
      omega
    · rw [if_neg h]
      simp
      omega
  · intro cfg s t hst
    simp [applyChange, hst]
  · intro cfg s
    by_cases h : 0 < cfg.delay <;> simp [applyChange, h]
  · intro s k
    exact ⟨rfl, applyTick_iterate_none s.innerLoading k⟩

/-- Witness for `loading_delay_automaton_amended`: mounting with
`{delay: 3}`, the flag is still false after 2 ms and true after 3 ms. -/
theorem loading_delay_automaton_amended_witness :
    (applyTick^[2] (mountState (getLoadingConfig
        (LoadingInput.obj (JSDelay.num 3) false)))).innerLoading = false ∧
    (applyTick^[3] (mountState (getLoadingConfig
        (LoadingInput.obj (JSDelay.num 3) false)))).innerLoading = true := by
  have h := (loading_delay_automaton_amended 3 (by decide) false).1
  exact ⟨by rw [h 2]; decide, by rw [h 3]; decide⟩

/-- C6: while loading or disabled, a click has its default prevented
and never reaches the supplied handler; otherwise the supplied handler
runs exactly once, with the event typed as an anchor event iff `href`
is among the props, and the default is not prevented. -/
theorem handleClick_gate (innerLoading disabled hrefInProps : Bool) :
    ((innerLoading || disabled) = true →
      ∀ hasOnClick : Bool,
        handleClick innerLoading disabled hasOnClick hrefInProps =
          { defaultPrevented := true, handlerCalls := 0,
            anchorTyped := none }) ∧
    ((innerLoading || disabled) = false →
      handleClick innerLoading disabled true hrefInProps =
        { defaultPrevented := false, handlerCalls := 1,
          anchorTyped := some hrefInProps }) := by
  constructor
  · intro h hasOnClick
    simp [handleClick, h]
  · intro h
    simp [handleClick, h]

/-- Witness for `handleClick_gate`: a loading button suppresses the
click, and an idle enabled button without `href` fires the handler
once with the button typing. -/
theorem handleClick_gate_witness :
    handleClick true false true true =
      { defaultPrevented := true, handlerCalls := 0,
        anchorTyped := none } ∧
    handleClick false false true false =
      { defaultPrevented := false, handlerCalls := 1,
        anchorTyped := some false } :=
  ⟨(handleClick_gate true false true).1 rfl true,
    (handleClick_gate false false false).2 rfl⟩

/-- C7: a link button with `href` present renders in both states; when
disabled its `href` is withheld, `tabIndex` is `-1`, `aria-disabled` is
set and the disabled class is added; when enabled the `href` passes
through and `tabIndex` is `0`. -/
theorem link_disabled_attrs (href : String) :
    renderLinkButton href true =
      { href := none, tabIndex := -1, ariaDisabled := true,
        disabledClass := true, renders := true } ∧
    renderLinkButton href false =
      { href := some href, tabIndex := 0, ariaDisabled := false,
        disabledClass := false, renders := true } :=
  ⟨rfl, rfl⟩

/-- C8: icon selection priority - a supplied icon wins while not
loading; else an object loading spec carrying a custom icon wins; else
the default spinner renders, parameterised by icon existence, the
loading flag and the first-mount flag; and the first-mount flag starts
`true`, flips `false` after the mount effect, and resets `true` on
unmount cleanup. -/
theorem iconNode_priority :
    (∀ (l : LoadingInput) (m : Bool),
      iconNode true false l m = IconNode.customIcon) ∧
    (∀ (icon innerLoading m : Bool) (d : JSDelay),
      (icon && !innerLoading) = false →
      iconNode icon innerLoading (LoadingInput.obj d true) m =
        IconNode.customLoadingIcon) ∧
    (∀ (icon innerLoading m : Bool) (l : LoadingInput),
      (icon && !innerLoading) = false → loadingObjIcon l = false →
      iconNode icon innerLoading l m =
        IconNode.defaultSpinner icon innerLoading m) ∧
    mountRefAfter [] = true ∧
    (∀ es : List MountEvent,
      mountRefAfter (es ++ [MountEvent.mountEffect]) = false) ∧
    (∀ es : List MountEvent,
      mountRefAfter (es ++ [MountEvent.unmountCleanup]) = true) := by
  refine ⟨fun l m => rfl, ?_, ?_, rfl, ?_, ?_⟩
  · intro icon innerLoading m d h
    simp [iconNode, h, loadingObjIcon]
  · intro icon innerLoading m l h hobj
    simp [iconNode, h, hobj]
  · intro es
    simp [mountRefAfter, List.foldl_append, stepMountRef]
  · intro es
    simp [mountRefAfter, List.foldl_append, stepMountRef]

/-- Witness for `iconNode_priority`: while actively loading with a
custom loading icon the custom loading icon shows even though a user
icon exists, and with a plain boolean loading prop the default spinner
shows. -/
theorem iconNode_priority_witness :
    iconNode true true (LoadingInput.obj (JSDelay.num 0) true) false =
      IconNode.customLoadingIcon ∧
    iconNode false true (LoadingInput.bool true) false =
      IconNode.defaultSpinner false true false :=
  ⟨iconNode_priority.2.1 true true false (JSDelay.num 0) rfl,
    iconNode_priority.2.2.1 false true false (LoadingInput.bool true)
      rfl rfl⟩

/-- The spec's wording of icon-only detection: children absent (falsy,
with the literal number `0` counting as present) and an icon resolving
to present (a supplied icon, or the loading icon when the loading flag
is active). -/
def iconOnlySpec (children : JSChildren) (innerLoading icon : Bool) :
    Bool :=
  (!childrenTruthy children && !(children == JSChildren.numZero)) &&
    (icon || innerLoading)

/-- C9: the `icon-only` class condition coincides with the spec's
description on every input, and is false whenever children is the
literal number `0`. -/
theorem icon_only_detection :
    (∀ (c : JSChildren) (innerLoading icon : Bool),
      iconOnlyClass c innerLoading icon =
        iconOnlySpec c innerLoading icon) ∧
    (∀ innerLoading icon : Bool,
      iconOnlyClass JSChildren.numZero innerLoading icon = false) := by
  constructor
  · intro c innerLoading icon
    cases c <;> cases innerLoading <;> cases icon <;> rfl
  · intro innerLoading icon
    cases innerLoading <;> cases icon <;> rfl

/-- C10: the auto-space setting defaults to `true` when neither the
prop nor the context supplies it; and whenever the spacing conditions
all hold (one child, no icon, bordered variant, auto-space on,
two-CJK-char text - so the effect has set `hasTwoCNChar`), an active
loading flag withholds the `two-chinese-chars` class. -/
theorem two_cn_class_withheld_while_loading :
    mergedInsertSpace none none = true ∧
    (∀ (variant : Option String) (prev : Bool),
      isUnBorderedButtonVariant variant = false →
      hasTwoCNCharAfterEffect true (needInserted 1 false variant) true
          prev = true ∧
      twoChineseCharsClass
          (hasTwoCNCharAfterEffect true (needInserted 1 false variant)
            true prev)
          true true = false) := by
  refine ⟨rfl, ?_⟩
  intro variant prev h
  have hn : needInserted 1 false variant = true := by
    simp [needInserted, h]
  simp [hasTwoCNCharAfterEffect, twoChineseCharsClass, hn]

/-- Witness for `two_cn_class_withheld_while_loading`: the `outlined`
variant with all spacing conditions met but the loading flag active. -/
theorem two_cn_class_withheld_while_loading_witness :
    twoChineseCharsClass
      (hasTwoCNCharAfterEffect true
        (needInserted 1 false (some "outlined")) true false)
      true true = false :=
  (two_cn_class_withheld_while_loading.2 (some "outlined") false rfl).2

end Button
